import Mathlib

/-!
Verification development for the EKS kube-cost proof-of-concept: a shallow
embedding of `pod_resource_collector.py` (unit normalizers, pricing cache,
pod and node cost passes) and `kube_resource_server.py` (pricing lookup),
together with theorems settling the specification claims about them.

Strings are modelled as lists of characters; Python floats are modelled as
exact rationals; Python exceptions are modelled with `Except`; fallible
parsing (`int(...)`, `float(...)`) returns `Option`.
-/

/-- Character-list model of Python strings. -/
abbrev Str := List Char

/-- Numeric value of a decimal digit character, `none` otherwise. -/
def digitVal? (c : Char) : Option Nat :=
  if c.isDigit then some (c.toNat - 48) else none

/-- Accumulate the value of a run of digit characters; fails on a non-digit. -/
def digitsValAux : Nat → Str → Option Nat
  | acc, [] => some acc
  | acc, c :: cs =>
    match digitVal? c with
    | some d => digitsValAux (10 * acc + d) cs
    | none => none

/-- Value of a non-empty all-digit string (the core of Python `int`). -/
def digitsVal? : Str → Option Nat
  | [] => none
  | c :: cs => digitsValAux 0 (c :: cs)

/-- Model of Python `int(s)`: optional sign followed by at least one digit;
raising `ValueError` is modelled as `none`. -/
def pyInt? (s : Str) : Option Int :=
  match s with
  | [] => none
  | c :: rest =>
    if c = '-' then (digitsVal? rest).map (fun n => -(n : Int))
    else if c = '+' then (digitsVal? rest).map (fun n => (n : Int))
    else (digitsVal? (c :: rest)).map (fun n => (n : Int))

/-- Split a string at the dot characters. -/
def splitDots : Str → List Str
  | [] => [[]]
  | c :: cs =>
    if c = '.' then
      [] :: splitDots cs
    else
      match splitDots cs with
      | [] => [[c]]
      | p :: ps => (c :: p) :: ps

/-- Value of a possibly-empty all-digit string (empty reads as zero). -/
def digitsValOpt? (s : Str) : Option Nat := digitsValAux 0 s

/-- Unsigned decimal literal: digits with at most one dot, at least one
digit overall. -/
def floatMag? (s : Str) : Option ℚ :=
  match splitDots s with
  | [ip] => (digitsVal? ip).map (fun n => (n : ℚ))
  | [ip, fp] =>
    if ip.isEmpty && fp.isEmpty then none
    else
      match digitsValOpt? ip, digitsValOpt? fp with
      | some a, some b => some ((a : ℚ) + (b : ℚ) / 10 ^ fp.length)
      | _, _ => none
  | _ => none

/-- Model of Python `float(s)` on decimal literals: optional sign and an
unsigned magnitude; raising `ValueError` is modelled as `none`. -/
def pyFloat? (s : Str) : Option ℚ :=
  match s with
  | [] => none
  | c :: rest =>
    if c = '-' then (floatMag? rest).map (fun q => -q)
    else if c = '+' then floatMag? rest
    else floatMag? (c :: rest)

/-- Model of Python `s.endswith(suffix)`. -/
def strEndsWith (s suffix : Str) : Bool :=
  if suffix.length ≤ s.length then s.drop (s.length - suffix.length) == suffix
  else false

/-- Model of Python `s[:-n]` for `0 < n ≤ len s`. -/
def strDropRight (s : Str) (n : Nat) : Str := s.take (s.length - n)

/-- Embedding of `convert_to_millicores` from `pod_resource_collector.py`:
nanocore suffix divides by 1,000,000, millicore suffix passes through,
a bare number is read as whole cores and multiplied by 1000. -/
def convert_to_millicores (cpu_value : Str) : Option ℚ :=
  if strEndsWith cpu_value ['n'] then
    (pyInt? (strDropRight cpu_value 1)).map (fun k => (k : ℚ) / 1000000)
  else if strEndsWith cpu_value ['m'] then
    (pyInt? (strDropRight cpu_value 1)).map (fun k => (k : ℚ))
  else
    (pyFloat? cpu_value).map (fun q => q * 1000)

/-- Embedding of `convert_to_megabytes` from `pod_resource_collector.py`:
Ki divides by 1024, Mi passes through, Gi multiplies by 1024, a bare
integer is read as mebibytes. -/
def convert_to_megabytes (memory_value : Str) : Option ℚ :=
  if strEndsWith memory_value ['K', 'i'] then
    (pyInt? (strDropRight memory_value 2)).map (fun k => (k : ℚ) / 1024)
  else if strEndsWith memory_value ['M', 'i'] then
    (pyInt? (strDropRight memory_value 2)).map (fun k => (k : ℚ))
  else if strEndsWith memory_value ['G', 'i'] then
    (pyInt? (strDropRight memory_value 2)).map (fun k => (k : ℚ) * 1024)
  else
    (pyInt? memory_value).map (fun k => (k : ℚ))

/-- Round-half-to-even on rationals, the rounding Python's `round` applies
to the value of its argument. -/
def roundHalfEven (x : ℚ) : Int :=
  if x - ⌊x⌋ < 1 / 2 then ⌊x⌋
  else if 1 / 2 < x - ⌊x⌋ then ⌊x⌋ + 1
  else if ⌊x⌋ % 2 = 0 then ⌊x⌋ else ⌊x⌋ + 1

/-- Model of Python `round(x, n)` on exact rationals. -/
def pyRound (x : ℚ) (n : Nat) : ℚ := (roundHalfEven (x * 10 ^ n) : ℚ) / 10 ^ n


/-! ### Data model of the collector -/

/-- A price value as seen by the collector: either a number from the pricing
service response, or the literal string sentinel for an unknown price. -/
inductive CostValue where
  | unknown : CostValue
  | num : ℚ → CostValue
deriving DecidableEq

/-- Python errors the collector can raise while processing one record. -/
inductive PyErr where
  | valueError : PyErr
  | typeError : PyErr
  | nameError : PyErr
deriving DecidableEq

/-- Convert a fallible parse into the exception it raises in Python. -/
def toExcept {α : Type} (e : PyErr) : Option α → Except PyErr α
  | some a => Except.ok a
  | none => Except.error e

/-- Result of the metrics-API fetch for one record: an `ApiException`, or a
listing in which the record's usage entry may or may not be present. -/
inductive MetricsFetch where
  | apiError : MetricsFetch
  | ok : Option (Option Str × Option Str) → MetricsFetch

/-- The hourly-cost variable of the node pass: it is initialized to the
literal string sentinel and only overwritten when price and capacity allow. -/
inductive HourlyCost where
  | unknownStr : HourlyCost
  | val : ℚ → HourlyCost
deriving DecidableEq

/-- Embedding of the node cost computation of `gather_node_metadata`
(lines 308-317): when the price is known and total CPU is positive, hourly
cost is price times cores rounded to 8 places and usage/wastage costs are
its proportional shares, each rounded to 8 places; otherwise the hourly
cost stays the string sentinel and both costs stay zero. -/
def node_cost_calc (cost : CostValue) (total_cpu current_cpu : ℚ) :
    HourlyCost × ℚ × ℚ :=
  match cost with
  | CostValue.unknown => (HourlyCost.unknownStr, 0, 0)
  | CostValue.num p =>
    if 0 < total_cpu then
      let hourly := pyRound (p * (total_cpu / 1000)) 8
      (HourlyCost.val hourly,
        pyRound ((current_cpu / total_cpu) * hourly) 8,
        pyRound (((total_cpu - current_cpu) / total_cpu) * hourly) 8)
    else (HourlyCost.unknownStr, 0, 0)

/-- Inputs of one node iteration: capacity strings from node status and the
metrics-API outcome. -/
structure NodeInput where
  capacityCpu : Option Str
  capacityMemory : Option Str
  metrics : MetricsFetch

/-- The values printed and published for one node by `gather_node_metadata`. -/
structure NodePublished where
  currentCpu : ℚ
  currentMemory : ℚ
  totalCpu : ℚ
  totalMemory : ℚ
  hourlyCost : ℚ
  fiveMinCost : ℚ
  usageCost : ℚ
  wastageCost : ℚ
deriving DecidableEq

/-- Current usage of a node after the guarded metrics fetch: an
`ApiException` is caught and leaves the zero initializations; a present
entry is normalized, and a parse failure there is an uncaught
`ValueError`. -/
def nodeUsage (node : NodeInput) : Except PyErr (ℚ × ℚ) :=
  match node.metrics with
  | MetricsFetch.apiError => Except.ok ((0 : ℚ), (0 : ℚ))
  | MetricsFetch.ok none => Except.ok ((0 : ℚ), (0 : ℚ))
  | MetricsFetch.ok (some u) =>
    match convert_to_millicores (u.1.getD ['0']) with
    | none => Except.error PyErr.valueError
    | some cu =>
      match convert_to_megabytes (u.2.getD ['0']) with
      | none => Except.error PyErr.valueError
      | some mu => Except.ok (cu, mu)

/-- Embedding of one iteration of the node loop of `gather_node_metadata`:
capacity parsing (unguarded, a parse failure raises), the guarded metrics
fetch, the guarded cost block, and the unguarded five-minute cost derived
from the hourly cost, which raises `TypeError` when the hourly cost is
still the string sentinel. -/
def nodeStep (node : NodeInput) (price : CostValue) : Except PyErr NodePublished :=
  match toExcept PyErr.valueError (convert_to_millicores (node.capacityCpu.getD ['0'])) with
  | Except.error e => Except.error e
  | Except.ok total_cpu =>
    match toExcept PyErr.valueError (convert_to_megabytes (node.capacityMemory.getD ['0'])) with
    | Except.error e => Except.error e
    | Except.ok total_memory =>
      match nodeUsage node with
      | Except.error e => Except.error e
      | Except.ok usage =>
        let costs := node_cost_calc price total_cpu usage.1
        match costs.1 with
        | HourlyCost.unknownStr => Except.error PyErr.typeError
        | HourlyCost.val h =>
          Except.ok
            { currentCpu := usage.1, currentMemory := usage.2,
              totalCpu := total_cpu, totalMemory := total_memory,
              hourlyCost := h, fiveMinCost := pyRound (h / 12) 8,
              usageCost := costs.2.1, wastageCost := costs.2.2 }

/-- The node pass: nodes are processed in order; the first uncaught
per-iteration exception propagates to the pass-level handler, so the
remaining nodes are not processed. -/
def gather_node_pass : List (NodeInput × CostValue) → List NodePublished
  | [] => []
  | (node, price) :: rest =>
    match nodeStep node price with
    | Except.error _ => []
    | Except.ok pub => pub :: gather_node_pass rest

/-! ### Pricing cache model -/

/-- Cache key: region, instance type, operating system. -/
abbrev PriceKey := Str × Str × Str

/-- The global cost cache: key, cached value, fetch timestamp. -/
abbrev CostCache := List (PriceKey × CostValue × ℚ)

/-- The fixed cache TTL of 300 seconds. -/
def CACHE_EXPIRY_SECONDS : ℚ := 300

/-- Membership lookup in the cache map. -/
def cacheFind : CostCache → PriceKey → Option (CostValue × ℚ)
  | [], _ => none
  | (k, v, t) :: rest, key => if k = key then some (v, t) else cacheFind rest key

/-- Deletion of a key from the cache map. -/
def cacheErase : CostCache → PriceKey → CostCache
  | [], _ => []
  | (k, v, t) :: rest, key =>
    if k = key then cacheErase rest key else (k, v, t) :: cacheErase rest key

/-- Insertion of a key into the cache map. -/
def cacheInsert (c : CostCache) (key : PriceKey) (v : CostValue) (t : ℚ) : CostCache :=
  (key, v, t) :: cacheErase c key

/-- Outcome of the upstream pricing request: a `RequestException` (timeout,
non-2xx, transport failure), or a 2xx JSON body whose cost field may be
present or absent. -/
inductive UpstreamResult where
  | reqError : UpstreamResult
  | ok : Option ℚ → UpstreamResult

/-- Result of one price lookup: the value returned to the caller, the cache
contents afterwards, and how many upstream requests were issued. -/
structure LookupResult where
  value : CostValue
  cache : CostCache
  upstreamCalls : Nat

/-- The fetch part of `get_cost_per_vcpu_per_hour`: a request failure
returns the sentinel and leaves the cache as it is; a 2xx response stores
`cost_data.get(key, sentinel)` in the cache timestamped at completion. -/
def fetch_price (cache : CostCache) (key : PriceKey) (upstream : UpstreamResult)
    (tDone : ℚ) : LookupResult :=
  match upstream with
  | UpstreamResult.reqError => ⟨CostValue.unknown, cache, 1⟩
  | UpstreamResult.ok body =>
    let v := match body with
      | some q => CostValue.num q
      | none => CostValue.unknown
    ⟨v, cacheInsert cache key v tDone, 1⟩

/-- Embedding of `get_cost_per_vcpu_per_hour` (lines 123-168): a cache hit
younger than the TTL is returned without an upstream call; an expired entry
is deleted and a fresh fetch is performed; a missing entry triggers a fetch
directly. -/
def get_cost_per_vcpu_per_hour (cache : CostCache) (key : PriceKey) (now : ℚ)
    (upstream : UpstreamResult) (tDone : ℚ) : LookupResult :=
  match cacheFind cache key with
  | some (v, ts) =>
    if now - ts < CACHE_EXPIRY_SECONDS then ⟨v, cache, 0⟩
    else fetch_price (cacheErase cache key) key upstream tDone
  | none => fetch_price cache key upstream tDone

/-! ### Pod pass model -/

/-- Inputs of one pod iteration: the first container's resource requests
(absent when there are no containers or no requests) and the metrics-API
outcome. -/
structure PodInput where
  requests : Option (Option Str × Option Str)
  metrics : MetricsFetch

/-- Python locals that leak across loop iterations: `memory_usage` and the
pair `usage_cost`, `wastage_cost` are only assigned on some paths and
otherwise retain the previous iteration's values (or are unbound). -/
structure PodCarry where
  mem : Option ℚ
  costs : Option (ℚ × ℚ)

/-- At the start of the pass no leaked local is bound. -/
def podCarryInit : PodCarry := ⟨none, none⟩

/-- The unused-CPU variable: initialized to the dash sentinel and only
assigned when the CPU request is positive. -/
inductive UnusedCpu where
  | na : UnusedCpu
  | val : ℚ → UnusedCpu
deriving DecidableEq

/-- The values printed and published for one pod by `gather_pod_metadata`. -/
structure PodPublished where
  cpuUsage : ℚ
  memoryUsage : ℚ
  cpuRequest : ℚ
  memoryRequest : ℚ
  unusedCpu : UnusedCpu
  usageCost : ℚ
  wastageCost : ℚ
deriving DecidableEq

/-- CPU request of a pod: zero when no requests are declared, otherwise the
normalized value of the cpu entry defaulting to the zero string. -/
def podRequestCpu (pod : PodInput) : Option ℚ :=
  match pod.requests with
  | none => some 0
  | some r => convert_to_millicores (r.1.getD ['0'])

/-- Memory request of a pod, analogous to `podRequestCpu`. -/
def podRequestMemory (pod : PodInput) : Option ℚ :=
  match pod.requests with
  | none => some 0
  | some r => convert_to_megabytes (r.2.getD ['0'])

/-- CPU usage of a pod after the guarded metrics fetch: an `ApiException`
or a missing entry leaves the zero initialization; a present entry is
normalized (a parse failure is not caught by the `ApiException` handler). -/
def podUsageCpu (pod : PodInput) : Option ℚ :=
  match pod.metrics with
  | MetricsFetch.apiError => some 0
  | MetricsFetch.ok none => some 0
  | MetricsFetch.ok (some u) => convert_to_millicores (u.1.getD ['0'])

/-- Memory usage of a pod after the guarded metrics fetch: unlike CPU usage
it has no zero initialization, so when the entry is missing the variable
keeps the previous iteration's value or is unbound. -/
def podUsageMemory (carry : PodCarry) (pod : PodInput) : Except PyErr (Option ℚ) :=
  match pod.metrics with
  | MetricsFetch.apiError => Except.ok (some 0)
  | MetricsFetch.ok none => Except.ok carry.mem
  | MetricsFetch.ok (some u) =>
    match convert_to_megabytes (u.2.getD ['0']) with
    | some m => Except.ok (some m)
    | none => Except.error PyErr.valueError

/-- Embedding of the cost block of `gather_pod_metadata` (lines 241-252):
comparing the string sentinel with zero raises `TypeError`; for a positive
price the usage cost is computed unconditionally and the wastage cost only
for a positive (rounded) CPU request; for a non-positive price both
variables keep the previous iteration's values or are unbound. -/
def pod_cost_calc (price : CostValue) (carryCosts : Option (ℚ × ℚ))
    (cpu_usage_r cpu_request_r : ℚ) (unused : UnusedCpu) : Except PyErr (ℚ × ℚ) :=
  match price with
  | CostValue.unknown => Except.error PyErr.typeError
  | CostValue.num p =>
    if 0 < p then
      let uc := pyRound ((cpu_usage_r / 1000) * p) 8
      if 0 < cpu_request_r then
        match unused with
        | UnusedCpu.val q => Except.ok (uc, pyRound ((q / 1000) * p) 8)
        | UnusedCpu.na => Except.error PyErr.typeError
      else Except.ok (uc, 0)
    else toExcept PyErr.nameError carryCosts

/-- Embedding of one iteration of the pod loop of `gather_pod_metadata`
(lines 198-257): request parsing, guarded metrics fetch, unused-CPU
derivation, two-place rounding, the cost block, eight-place rounding of the
published costs. -/
def podStep (carry : PodCarry) (pod : PodInput) (price : CostValue) :
    Except PyErr (PodPublished × PodCarry) :=
  match toExcept PyErr.valueError (podRequestCpu pod) with
  | Except.error e => Except.error e
  | Except.ok cpu_request =>
    match toExcept PyErr.valueError (podRequestMemory pod) with
    | Except.error e => Except.error e
    | Except.ok memory_request =>
      match toExcept PyErr.valueError (podUsageCpu pod) with
      | Except.error e => Except.error e
      | Except.ok cpu_usage =>
        match podUsageMemory carry pod with
        | Except.error e => Except.error e
        | Except.ok memory_usage? =>
          let unused0 : UnusedCpu :=
            if 0 < cpu_request then UnusedCpu.val (cpu_request - cpu_usage)
            else UnusedCpu.na
          let cpu_usage_r := pyRound cpu_usage 2
          match toExcept PyErr.nameError memory_usage? with
          | Except.error e => Except.error e
          | Except.ok memory_usage =>
            let memory_usage_r := pyRound memory_usage 2
            let cpu_request_r := pyRound cpu_request 2
            let unused : UnusedCpu := match unused0 with
              | UnusedCpu.val q => UnusedCpu.val (pyRound q 2)
              | UnusedCpu.na => UnusedCpu.na
            match pod_cost_calc price carry.costs cpu_usage_r cpu_request_r unused with
            | Except.error e => Except.error e
            | Except.ok costs =>
              Except.ok
                ({ cpuUsage := cpu_usage_r, memoryUsage := memory_usage_r,
                   cpuRequest := cpu_request_r, memoryRequest := memory_request,
                   unusedCpu := unused,
                   usageCost := pyRound costs.1 8, wastageCost := pyRound costs.2 8 },
                 { mem := some memory_usage_r, costs := some costs })

/-- The pod pass: pods are processed in order; the first uncaught exception
propagates to the pass-level handler, so the remaining pods are not
processed and nothing further is published. -/
def gather_pod_pass : PodCarry → List (PodInput × CostValue) → List PodPublished
  | _, [] => []
  | carry, (pod, price) :: rest =>
    match podStep carry pod price with
    | Except.error _ => []
    | Except.ok (pub, carry') => pub :: gather_pod_pass carry' rest

/-! ### Pricing server model -/

/-- One price dimension of an on-demand term in the catalog entry. -/
structure PriceDimension where
  pricePerUnitUSD : ℚ
deriving DecidableEq

/-- One product of the catalog response: its vcpu attribute (absent models
the Unknown default) and its on-demand terms, each a list of dimensions. -/
structure PricingProduct where
  vcpuAttr : Option Str
  onDemandTerms : List (List PriceDimension)

/-- The nested loops over terms and price dimensions return at the first
dimension encountered. -/
def firstPriceDimension : List (List PriceDimension) → Option PriceDimension
  | [] => none
  | [] :: rest => firstPriceDimension rest
  | (d :: _) :: _ => some d

/-- Embedding of `get_pricing_data` from `kube_resource_server.py`
(lines 47-107): an empty price list, a missing or unparseable vcpu
attribute, an absent price dimension, or a zero vcpu count (division by
zero) all end in the exception handlers returning the `None` triple;
otherwise the first price dimension of the first product yields the hourly
price and the per-vCPU price, each rounded to 4 places. -/
def get_pricing_data (priceList : List PricingProduct) : Option (ℚ × ℚ × Int) :=
  match priceList with
  | [] => none
  | product :: _ =>
    match product.vcpuAttr with
    | none => none
    | some vs =>
      match pyInt? vs with
      | none => none
      | some v =>
        match firstPriceDimension product.onDemandTerms with
        | none => none
        | some d =>
          if v = 0 then none
          else
            some (pyRound d.pricePerUnitUSD 4,
              pyRound (d.pricePerUnitUSD / (v : ℚ)) 4, v)

/-- HTTP-level outcome of the pricing endpoint. -/
inductive ApiResponse where
  | ok : ℚ → ℚ → Int → ApiResponse
  | badRequest : ApiResponse
  | serverError : ApiResponse
deriving DecidableEq

/-- Embedding of the `pricing_api` route (lines 110-135): missing or empty
parameters give a 400; a failed lookup gives a 500; otherwise the triple is
returned. -/
def pricing_api (region instance_type operating_system : Option Str)
    (priceList : List PricingProduct) : ApiResponse :=
  match region, instance_type, operating_system with
  | some r, some i, some o =>
    if r.isEmpty || i.isEmpty || o.isEmpty then ApiResponse.badRequest
    else
      match get_pricing_data priceList with
      | some (p, pc, v) => ApiResponse.ok p pc v
      | none => ApiResponse.serverError
  | _, _, _ => ApiResponse.badRequest

/-! ### Concrete scenario inputs -/

/-- A well-formed pod: 100m CPU and 100Mi memory requested, metrics report
the same usage. -/
def podNominal : PodInput :=
  { requests := some (some ['1', '0', '0', 'm'], some ['1', '0', '0', 'M', 'i']),
    metrics := MetricsFetch.ok
      (some (some ['1', '0', '0', 'm'], some ['1', '0', '0', 'M', 'i'])) }

/-- A pod using more CPU than it requested: 100m requested, 200m used. -/
def podOveruse : PodInput :=
  { requests := some (some ['1', '0', '0', 'm'], some ['0']),
    metrics := MetricsFetch.ok (some (some ['2', '0', '0', 'm'], some ['0'])) }

/-- A pod whose CPU request string has an unparseable numeric portion. -/
def podBadQuantity : PodInput :=
  { requests := some (some ['a', 'b', 'c'], some ['0']),
    metrics := MetricsFetch.ok none }

/-- A pod with no resource requests (CPU request zero) and 100m CPU usage. -/
def podZeroRequest : PodInput :=
  { requests := none,
    metrics := MetricsFetch.ok (some (some ['1', '0', '0', 'm'], some ['0'])) }

/-- A well-formed node with 4 cores of capacity and no metrics entry. -/
def nodeNominal : NodeInput :=
  { capacityCpu := some ['4'], capacityMemory := some ['0'],
    metrics := MetricsFetch.ok none }

/-- A node whose reported CPU capacity is zero. -/
def nodeZeroCapacity : NodeInput :=
  { capacityCpu := some ['0'], capacityMemory := some ['0'],
    metrics := MetricsFetch.ok none }

/-! ### Supporting lemmas -/

/-- Dropping the length of the left part of an append leaves the right part. -/
theorem drop_length_append (s t : Str) : (s ++ t).drop s.length = t := by
  induction s with
  | nil => rfl
  | cons a s ih => simp [ih]

/-- Taking the length of the left part of an append returns the left part. -/
theorem take_length_append (s t : Str) : (s ++ t).take s.length = s := by
  induction s with
  | nil => rfl
  | cons a s ih => simp [ih]

/-- An endswith test against a suffix of the same length as the appended tail
reduces to comparing the tail with the suffix. -/
theorem strEndsWith_append (s t suf : Str) (h : t.length = suf.length) :
    strEndsWith (s ++ t) suf = (t == suf) := by
  have hle : suf.length ≤ (s ++ t).length := by
    rw [List.length_append]; omega
  rw [strEndsWith, if_pos hle, List.length_append, ← h, Nat.add_sub_cancel,
    drop_length_append]

/-- Stripping the appended tail from an append returns the left part. -/
theorem strDropRight_append (s t : Str) : strDropRight (s ++ t) t.length = s := by
  rw [strDropRight, List.length_append, Nat.add_sub_cancel, take_length_append]

/-- Nanocore rule of the CPU normalizer: an integer with an n suffix is
divided by 1,000,000. -/
theorem convert_to_millicores_nano (s : Str) (k : Int) (h : pyInt? s = some k) :
    convert_to_millicores (s ++ ['n']) = some ((k : ℚ) / 1000000) := by
  have h1 : strEndsWith (s ++ ['n']) ['n'] = true := by
    rw [strEndsWith_append s ['n'] ['n'] rfl]; decide
  have h2 : strDropRight (s ++ ['n']) 1 = s := strDropRight_append s ['n']
  simp [convert_to_millicores, h1, h2, h]

/-- Millicore rule of the CPU normalizer: an integer with an m suffix passes
through unchanged. -/
theorem convert_to_millicores_milli (s : Str) (k : Int) (h : pyInt? s = some k) :
    convert_to_millicores (s ++ ['m']) = some (k : ℚ) := by
  have h1 : strEndsWith (s ++ ['m']) ['n'] = false := by
    rw [strEndsWith_append s ['m'] ['n'] rfl]; decide
  have h2 : strEndsWith (s ++ ['m']) ['m'] = true := by
    rw [strEndsWith_append s ['m'] ['m'] rfl]; decide
  have h3 : strDropRight (s ++ ['m']) 1 = s := strDropRight_append s ['m']
  simp [convert_to_millicores, h1, h2, h3, h]

/-- Bare-number rule of the CPU normalizer: a suffix-free decimal is read as
whole cores and multiplied by 1000. -/
theorem convert_to_millicores_bare (s : Str) (q : ℚ) (h : pyFloat? s = some q)
    (hn : strEndsWith s ['n'] = false) (hm : strEndsWith s ['m'] = false) :
    convert_to_millicores s = some (q * 1000) := by
  simp [convert_to_millicores, hn, hm, h]

/-- Kibibyte rule of the memory normalizer: divide by 1024. -/
theorem convert_to_megabytes_ki (s : Str) (k : Int) (h : pyInt? s = some k) :
    convert_to_megabytes (s ++ ['K', 'i']) = some ((k : ℚ) / 1024) := by
  have h1 : strEndsWith (s ++ ['K', 'i']) ['K', 'i'] = true := by
    rw [strEndsWith_append s ['K', 'i'] ['K', 'i'] rfl]; decide
  have h2 : strDropRight (s ++ ['K', 'i']) 2 = s := strDropRight_append s ['K', 'i']
  simp [convert_to_megabytes, h1, h2, h]

/-- Mebibyte rule of the memory normalizer: pass through unchanged. -/
theorem convert_to_megabytes_mi (s : Str) (k : Int) (h : pyInt? s = some k) :
    convert_to_megabytes (s ++ ['M', 'i']) = some (k : ℚ) := by
  have h1 : strEndsWith (s ++ ['M', 'i']) ['K', 'i'] = false := by
    rw [strEndsWith_append s ['M', 'i'] ['K', 'i'] rfl]; decide
  have h2 : strEndsWith (s ++ ['M', 'i']) ['M', 'i'] = true := by
    rw [strEndsWith_append s ['M', 'i'] ['M', 'i'] rfl]; decide
  have h3 : strDropRight (s ++ ['M', 'i']) 2 = s := strDropRight_append s ['M', 'i']
  simp [convert_to_megabytes, h1, h2, h3, h]

/-- Gibibyte rule of the memory normalizer: multiply by 1024. -/
theorem convert_to_megabytes_gi (s : Str) (k : Int) (h : pyInt? s = some k) :
    convert_to_megabytes (s ++ ['G', 'i']) = some ((k : ℚ) * 1024) := by
  have h1 : strEndsWith (s ++ ['G', 'i']) ['K', 'i'] = false := by
    rw [strEndsWith_append s ['G', 'i'] ['K', 'i'] rfl]; decide
  have h2 : strEndsWith (s ++ ['G', 'i']) ['M', 'i'] = false := by
    rw [strEndsWith_append s ['G', 'i'] ['M', 'i'] rfl]; decide
  have h3 : strEndsWith (s ++ ['G', 'i']) ['G', 'i'] = true := by
    rw [strEndsWith_append s ['G', 'i'] ['G', 'i'] rfl]; decide
  have h4 : strDropRight (s ++ ['G', 'i']) 2 = s := strDropRight_append s ['G', 'i']
  simp [convert_to_megabytes, h1, h2, h3, h4, h]

/-- Bare-number rule of the memory normalizer: a suffix-free integer is read
as mebibytes. -/
theorem convert_to_megabytes_bare (s : Str) (k : Int) (h : pyInt? s = some k)
    (hki : strEndsWith s ['K', 'i'] = false) (hmi : strEndsWith s ['M', 'i'] = false)
    (hgi : strEndsWith s ['G', 'i'] = false) :
    convert_to_megabytes s = some (k : ℚ) := by
  simp [convert_to_megabytes, hki, hmi, hgi, h]

/-- Round-half-even moves a rational by at most one half. -/
theorem abs_roundHalfEven_sub (x : ℚ) : |(roundHalfEven x : ℚ) - x| ≤ 1 / 2 := by
  have h0 : (⌊x⌋ : ℚ) ≤ x := Int.floor_le x
  have h1 : x < ⌊x⌋ + 1 := Int.lt_floor_add_one x
  rw [roundHalfEven]
  split_ifs with ha hb hc
  · rw [abs_le]; constructor <;> linarith
  · rw [not_lt] at ha
    push_cast
    rw [abs_le]; constructor <;> linarith
  · rw [not_lt] at ha hb
    rw [abs_le]; constructor <;> linarith
  · rw [not_lt] at ha hb
    push_cast
    rw [abs_le]; constructor <;> linarith

/-- Python rounding to n decimal places moves a rational by at most half a
unit in the last place. -/
theorem abs_pyRound_sub (x : ℚ) (n : Nat) :
    |pyRound x n - x| ≤ 1 / (2 * 10 ^ n) := by
  have hp : (0 : ℚ) < 10 ^ n := by positivity
  have h := abs_roundHalfEven_sub (x * 10 ^ n)
  rw [abs_le] at h
  have hrw : pyRound x n - x = ((roundHalfEven (x * 10 ^ n) : ℚ) - x * 10 ^ n) / 10 ^ n := by
    rw [pyRound]
    field_simp
    ring
  rw [hrw, abs_le]
  have key : (1 / (2 * 10 ^ n) : ℚ) * 10 ^ n = 1 / 2 := by
    field_simp
    ring
  constructor
  · rw [le_div_iff₀ hp, neg_mul, key]
    exact h.1
  · rw [div_le_iff₀ hp, key]
    exact h.2

/-- Round-half-even fixes integers. -/
theorem roundHalfEven_intCast (k : Int) : roundHalfEven (k : ℚ) = k := by
  norm_num [roundHalfEven, Int.floor_intCast]

/-- Python rounding fixes values that are exact at the target precision. -/
theorem pyRound_eq_self (x : ℚ) (n : Nat) (k : Int) (h : x * 10 ^ n = (k : ℚ)) :
    pyRound x n = x := by
  have hp : (0 : ℚ) < 10 ^ n := by positivity
  rw [pyRound, h, roundHalfEven_intCast, ← h, mul_div_cancel_right₀ _ (ne_of_gt hp)]

/-- Python rounding fixes zero. -/
theorem pyRound_zero (n : Nat) : pyRound 0 n = 0 :=
  pyRound_eq_self 0 n 0 (by norm_num)

/-- Round-half-even preserves non-negativity. -/
theorem roundHalfEven_nonneg (x : ℚ) (hx : 0 ≤ x) : 0 ≤ roundHalfEven x := by
  have h0 : (0 : Int) ≤ ⌊x⌋ := Int.floor_nonneg.2 hx
  rw [roundHalfEven]; split_ifs <;> omega

/-- Round-half-even preserves non-positivity. -/
theorem roundHalfEven_nonpos (x : ℚ) (hx : x ≤ 0) : roundHalfEven x ≤ 0 := by
  have hfl : (⌊x⌋ : ℚ) ≤ x := Int.floor_le x
  have h0 : ⌊x⌋ ≤ 0 := Int.floor_nonpos hx
  rw [roundHalfEven]
  split_ifs with ha hb hc
  · exact h0
  · rw [not_lt] at ha
    have hlt : (⌊x⌋ : ℚ) < 0 := by linarith
    have : ⌊x⌋ < 0 := by exact_mod_cast hlt
    omega
  · exact h0
  · rw [not_lt] at ha hb
    have hlt : (⌊x⌋ : ℚ) < 0 := by linarith
    have : ⌊x⌋ < 0 := by exact_mod_cast hlt
    omega

/-- Python rounding preserves non-negativity. -/
theorem pyRound_nonneg (x : ℚ) (n : Nat) (hx : 0 ≤ x) : 0 ≤ pyRound x n := by
  have hk : (0 : Int) ≤ roundHalfEven (x * 10 ^ n) :=
    roundHalfEven_nonneg _ (by positivity)
  rw [pyRound]
  apply div_nonneg _ (by positivity)
  exact_mod_cast hk

/-- Python rounding preserves non-positivity. -/
theorem pyRound_nonpos (x : ℚ) (n : Nat) (hx : x ≤ 0) : pyRound x n ≤ 0 := by
  have hmul : x * 10 ^ n ≤ 0 := by
    have h10 : (0 : ℚ) ≤ 10 ^ n := by positivity
    nlinarith
  have hk : roundHalfEven (x * 10 ^ n) ≤ 0 := roundHalfEven_nonpos _ hmul
  have hkq : ((roundHalfEven (x * 10 ^ n) : Int) : ℚ) ≤ 0 := by exact_mod_cast hk
  rw [pyRound]
  exact div_nonpos_of_nonpos_of_nonneg hkq (by positivity)

/-! ### Claim theorems -/

/-- C1: for every node record with total CPU capacity > 0 and a known
numeric unit price, the derived usage cost plus wastage cost equals the
hourly cost within the 8-decimal rounding tolerance, where hourly cost is
price times cores rounded to 8 places and the two costs are its usage and
idle shares, each rounded to 8 places. -/
theorem node_cost_sum_invariant (p t c h u w : ℚ) (ht : 0 < t)
    (heq : node_cost_calc (CostValue.num p) t c = (HourlyCost.val h, u, w)) :
    |u + w - h| ≤ 1 / 10 ^ 8 := by
  simp only [node_cost_calc, if_pos ht, Prod.mk.injEq, HourlyCost.val.injEq] at heq
  obtain ⟨hh, hu, hw⟩ := heq
  subst hh hu hw
  set H := pyRound (p * (t / 1000)) 8 with hH
  have key : (c / t) * H + ((t - c) / t) * H = H := by
    field_simp
    ring
  have h1 := abs_pyRound_sub ((c / t) * H) 8
  have h2 := abs_pyRound_sub (((t - c) / t) * H) 8
  have hsplit : pyRound ((c / t) * H) 8 + pyRound (((t - c) / t) * H) 8 - H
      = (pyRound ((c / t) * H) 8 - (c / t) * H)
        + (pyRound (((t - c) / t) * H) 8 - ((t - c) / t) * H) := by
    linarith [key]
  rw [hsplit]
  calc |(pyRound ((c / t) * H) 8 - (c / t) * H)
        + (pyRound (((t - c) / t) * H) 8 - ((t - c) / t) * H)|
      ≤ |pyRound ((c / t) * H) 8 - (c / t) * H|
        + |pyRound (((t - c) / t) * H) 8 - ((t - c) / t) * H| := abs_add _ _
    _ ≤ 1 / (2 * 10 ^ 8) + 1 / (2 * 10 ^ 8) := add_le_add h1 h2
    _ = 1 / 10 ^ 8 := by norm_num

/-- Witness for C1 at the spec's scenario B: a node with 4000 millicores
capacity, 1000 millicores usage and unit price 1/25 per vCPU-hour. -/
theorem node_cost_sum_invariant_app :
    |(1 / 25 : ℚ) + 3 / 25 - 4 / 25| ≤ 1 / 10 ^ 8 := by
  apply node_cost_sum_invariant (1 / 25) 4000 1000 (4 / 25) (1 / 25) (3 / 25)
    (by norm_num)
  have e1 : pyRound ((1 / 25 : ℚ) * (4000 / 1000)) 8 = 4 / 25 := by
    rw [show ((1 / 25 : ℚ) * (4000 / 1000)) = 4 / 25 by norm_num]
    exact pyRound_eq_self _ _ 16000000 (by norm_num)
  have e2 : pyRound ((1000 / 4000 : ℚ) * (4 / 25)) 8 = 1 / 25 := by
    rw [show ((1000 / 4000 : ℚ) * (4 / 25)) = 1 / 25 by norm_num]
    exact pyRound_eq_self _ _ 4000000 (by norm_num)
  have e3 : pyRound (((4000 - 1000 : ℚ) / 4000) * (4 / 25)) 8 = 3 / 25 := by
    rw [show (((4000 - 1000 : ℚ) / 4000) * (4 / 25)) = 3 / 25 by norm_num]
    exact pyRound_eq_self _ _ 12000000 (by norm_num)
  simp only [node_cost_calc, if_pos (show (0 : ℚ) < 4000 by norm_num)]
  rw [e1, e2, e3]

/-- C3: a lookup that finds a cache entry younger than the 300-second TTL
returns the cached value with no upstream call and an unchanged cache; an
expired or absent entry leads to exactly one upstream request with the
stale entry evicted, and a successful response installs a fresh entry
timestamped at completion time, found by subsequent lookups. -/
theorem pricing_cache_contract (cache : CostCache) (key : PriceKey)
    (v : CostValue) (ts now tDone q : ℚ) (up : UpstreamResult) :
    (cacheFind cache key = some (v, ts) → now - ts < CACHE_EXPIRY_SECONDS →
      get_cost_per_vcpu_per_hour cache key now up tDone = ⟨v, cache, 0⟩)
    ∧ (cacheFind cache key = some (v, ts) → ¬ now - ts < CACHE_EXPIRY_SECONDS →
      (get_cost_per_vcpu_per_hour cache key now up tDone).upstreamCalls = 1
      ∧ get_cost_per_vcpu_per_hour cache key now (UpstreamResult.ok (some q)) tDone
        = ⟨CostValue.num q, cacheInsert (cacheErase cache key) key (CostValue.num q) tDone, 1⟩)
    ∧ (cacheFind cache key = none →
      (get_cost_per_vcpu_per_hour cache key now up tDone).upstreamCalls = 1
      ∧ get_cost_per_vcpu_per_hour cache key now (UpstreamResult.ok (some q)) tDone
        = ⟨CostValue.num q, cacheInsert cache key (CostValue.num q) tDone, 1⟩)
    ∧ cacheFind (cacheInsert cache key (CostValue.num q) tDone) key
      = some (CostValue.num q, tDone) := by
  refine ⟨?_, ?_, ?_, ?_⟩
  · intro hf hlt
    simp only [get_cost_per_vcpu_per_hour, hf, if_pos hlt]
  · intro hf hge
    refine ⟨?_, ?_⟩
    · simp only [get_cost_per_vcpu_per_hour, hf, if_neg hge]
      cases up <;> rfl
    · simp only [get_cost_per_vcpu_per_hour, hf, if_neg hge, fetch_price]
  · intro hf
    refine ⟨?_, ?_⟩
    · simp only [get_cost_per_vcpu_per_hour, hf]
      cases up <;> rfl
    · simp only [get_cost_per_vcpu_per_hour, hf, fetch_price]
  · simp [cacheInsert, cacheFind]

/-- Witness for C3: a fresh entry fetched at time 100 is served from the
cache at time 200 with no upstream call. -/
theorem pricing_cache_contract_app :
    get_cost_per_vcpu_per_hour [((['r'], ['i'], ['o']), CostValue.num 5, 100)]
      (['r'], ['i'], ['o']) 200 UpstreamResult.reqError 200
      = ⟨CostValue.num 5, [((['r'], ['i'], ['o']), CostValue.num 5, 100)], 0⟩ :=
  (pricing_cache_contract [((['r'], ['i'], ['o']), CostValue.num 5, 100)]
    (['r'], ['i'], ['o']) (CostValue.num 5) 100 200 200 5 UpstreamResult.reqError).1
    (by simp [cacheFind]) (by norm_num [CACHE_EXPIRY_SECONDS])

/-- C7 counterexample: a 2xx upstream response whose JSON body has no
cost field yields the Unknown sentinel, yet a cache entry for it is
inserted, so the very next lookup for the same key within the TTL is a
cache hit with zero upstream calls — refuting that nothing is cached and
that the next lookup performs a fresh upstream request. -/
theorem upstream_missing_field_cached_cx :
    (get_cost_per_vcpu_per_hour [] (['r'], ['i'], ['o']) 0
        (UpstreamResult.ok none) 0).value = CostValue.unknown
    ∧ (get_cost_per_vcpu_per_hour [] (['r'], ['i'], ['o']) 0
        (UpstreamResult.ok none) 0).cache
      = [((['r'], ['i'], ['o']), CostValue.unknown, 0)]
    ∧ (get_cost_per_vcpu_per_hour
        (get_cost_per_vcpu_per_hour [] (['r'], ['i'], ['o']) 0
          (UpstreamResult.ok none) 0).cache
        (['r'], ['i'], ['o']) 100 (UpstreamResult.ok (some 5)) 100).upstreamCalls = 0
    ∧ (get_cost_per_vcpu_per_hour
        (get_cost_per_vcpu_per_hour [] (['r'], ['i'], ['o']) 0
          (UpstreamResult.ok none) 0).cache
        (['r'], ['i'], ['o']) 100 (UpstreamResult.ok (some 5)) 100).value
      = CostValue.unknown := by
  have h1 : get_cost_per_vcpu_per_hour [] (['r'], ['i'], ['o']) 0
      (UpstreamResult.ok none) 0
      = ⟨CostValue.unknown, [((['r'], ['i'], ['o']), CostValue.unknown, 0)], 1⟩ := by
    simp [get_cost_per_vcpu_per_hour, cacheFind, fetch_price, cacheInsert, cacheErase]
  have h2 : get_cost_per_vcpu_per_hour
      [((['r'], ['i'], ['o']), CostValue.unknown, 0)]
      (['r'], ['i'], ['o']) 100 (UpstreamResult.ok (some 5)) 100
      = ⟨CostValue.unknown, [((['r'], ['i'], ['o']), CostValue.unknown, 0)], 0⟩ := by
    have hf : cacheFind [((['r'], ['i'], ['o']), CostValue.unknown, 0)]
        (['r'], ['i'], ['o']) = some (CostValue.unknown, 0) := by
      simp [cacheFind]
    simp only [get_cost_per_vcpu_per_hour, hf]
    rw [if_pos (by norm_num [CACHE_EXPIRY_SECONDS])]
  rw [h1, h2]
  exact ⟨rfl, rfl, rfl, rfl⟩

/-- C7 amended: on a request failure (timeout, non-2xx, transport error)
the lookup returns the Unknown sentinel and inserts nothing, so a
subsequent lookup fetches again; but a 2xx response whose JSON body lacks
the cost field returns the Unknown sentinel and caches it like a success,
timestamped at completion, so the next lookup within the TTL returns the
cached sentinel without an upstream request. -/
theorem upstream_failure_cache_policy (cache : CostCache) (key : PriceKey)
    (now tDone : ℚ) (hf : cacheFind cache key = none) :
    get_cost_per_vcpu_per_hour cache key now UpstreamResult.reqError tDone
      = ⟨CostValue.unknown, cache, 1⟩
    ∧ get_cost_per_vcpu_per_hour cache key now (UpstreamResult.ok none) tDone
      = ⟨CostValue.unknown, cacheInsert cache key CostValue.unknown tDone, 1⟩
    ∧ cacheFind (cacheInsert cache key CostValue.unknown tDone) key
      = some (CostValue.unknown, tDone) := by
  refine ⟨?_, ?_, ?_⟩
  · simp only [get_cost_per_vcpu_per_hour, hf, fetch_price]
  · simp only [get_cost_per_vcpu_per_hour, hf, fetch_price]
  · simp [cacheInsert, cacheFind]

/-- Witness for C7's amended statement on the empty cache. -/
theorem upstream_failure_cache_policy_app :
    get_cost_per_vcpu_per_hour [] (['r'], ['i'], ['o']) 0 UpstreamResult.reqError 0
      = ⟨CostValue.unknown, [], 1⟩ :=
  (upstream_failure_cache_policy [] (['r'], ['i'], ['o']) 0 0 (by simp [cacheFind])).1

/-- C10: a successful pricing lookup on a catalog whose first product has a
parseable positive vCPU count and at least one price dimension returns the
first dimension's hourly price rounded to 4 places, that price divided by
the vCPU count rounded to 4 places, and the vCPU count itself. -/
theorem pricing_per_vcpu_derivation (vs : Str) (v : Int)
    (terms : List (List PriceDimension)) (d : PriceDimension)
    (rest : List PricingProduct)
    (hv : pyInt? vs = some v) (hpos : 0 < v)
    (hd : firstPriceDimension terms = some d) :
    get_pricing_data ({ vcpuAttr := some vs, onDemandTerms := terms } :: rest)
      = some (pyRound d.pricePerUnitUSD 4,
          pyRound (d.pricePerUnitUSD / (v : ℚ)) 4, v) := by
  simp [get_pricing_data, hv, hd, show v ≠ 0 by omega]

/-- Witness for C10: a catalog entry with 4 vCPUs priced 3/10 per hour
yields 3/10 hourly and 3/40 per vCPU per hour. -/
theorem pricing_per_vcpu_derivation_app :
    get_pricing_data [{ vcpuAttr := some ['4'], onDemandTerms := [[⟨3 / 10⟩]] }]
      = some (3 / 10, 3 / 40, 4) := by
  have h := pricing_per_vcpu_derivation ['4'] 4 [[⟨3 / 10⟩]] ⟨3 / 10⟩ []
    (by decide) (by norm_num) rfl
  rw [h, pyRound_eq_self (3 / 10) 4 3000 (by norm_num),
    pyRound_eq_self ((3 / 10 : ℚ) / (4 : Int)) 4 750 (by push_cast; norm_num)]
  norm_num

/-- C2 counterexample: the nanocore example of the claim fails on the code:
the CPU normalizer maps the string of 500000000 followed by n to 500
millicores (500,000,000 nanocores are half a core), not to 0.5 millicores
as the claim asserts. -/
theorem convert_nanocores_example_cx :
    convert_to_millicores ['5', '0', '0', '0', '0', '0', '0', '0', '0', 'n'] = some 500
    ∧ ¬ convert_to_millicores ['5', '0', '0', '0', '0', '0', '0', '0', '0', 'n']
        = some (1 / 2) := by
  have heq : (['5', '0', '0', '0', '0', '0', '0', '0', '0', 'n'] : Str)
      = ['5', '0', '0', '0', '0', '0', '0', '0', '0'] ++ ['n'] := rfl
  have h := convert_to_millicores_nano ['5', '0', '0', '0', '0', '0', '0', '0', '0']
    500000000 (by decide)
  rw [heq, h]
  norm_num

/-- C2 amended: the unit normalizers convert as the claim states except at
the nanocore example, which yields 500 millicores: an n suffix divides by
1,000,000, an m suffix passes through, a bare number is multiplied by 1000;
Ki, Mi, Gi convert through 1024-based factors and a bare integer is taken
as megabytes; in particular 500m gives 500, 2 gives 2000, 500000000n gives
500, 1Gi gives 1024, 512Mi gives 512 and 2Ki gives 2/1024. -/
theorem unit_normalizer_rules :
    (∀ (s : Str) (k : Int), pyInt? s = some k →
      convert_to_millicores (s ++ ['n']) = some ((k : ℚ) / 1000000))
    ∧ (∀ (s : Str) (k : Int), pyInt? s = some k →
      convert_to_millicores (s ++ ['m']) = some (k : ℚ))
    ∧ (∀ (s : Str) (q : ℚ), pyFloat? s = some q →
      strEndsWith s ['n'] = false → strEndsWith s ['m'] = false →
      convert_to_millicores s = some (q * 1000))
    ∧ (∀ (s : Str) (k : Int), pyInt? s = some k →
      convert_to_megabytes (s ++ ['K', 'i']) = some ((k : ℚ) / 1024))
    ∧ (∀ (s : Str) (k : Int), pyInt? s = some k →
      convert_to_megabytes (s ++ ['M', 'i']) = some (k : ℚ))
    ∧ (∀ (s : Str) (k : Int), pyInt? s = some k →
      convert_to_megabytes (s ++ ['G', 'i']) = some ((k : ℚ) * 1024))
    ∧ (∀ (s : Str) (k : Int), pyInt? s = some k →
      strEndsWith s ['K', 'i'] = false → strEndsWith s ['M', 'i'] = false →
      strEndsWith s ['G', 'i'] = false →
      convert_to_megabytes s = some (k : ℚ))
    ∧ convert_to_millicores ['5', '0', '0', 'm'] = some 500
    ∧ convert_to_millicores ['2'] = some 2000
    ∧ convert_to_millicores ['5', '0', '0', '0', '0', '0', '0', '0', '0', 'n'] = some 500
    ∧ convert_to_megabytes ['1', 'G', 'i'] = some 1024
    ∧ convert_to_megabytes ['5', '1', '2', 'M', 'i'] = some 512
    ∧ convert_to_megabytes ['2', 'K', 'i'] = some (2 / 1024) := by
  refine ⟨convert_to_millicores_nano, convert_to_millicores_milli,
    convert_to_millicores_bare, convert_to_megabytes_ki, convert_to_megabytes_mi,
    convert_to_megabytes_gi, convert_to_megabytes_bare, ?_, ?_, ?_, ?_, ?_, ?_⟩
  · rw [show (['5', '0', '0', 'm'] : Str) = ['5', '0', '0'] ++ ['m'] from rfl,
      convert_to_millicores_milli ['5', '0', '0'] 500 (by decide)]
    norm_num
  · have hf : pyFloat? ['2'] = some 2 := by
      have hs : splitDots ['2'] = [['2']] := by decide
      have hd : digitsVal? ['2'] = some 2 := by decide
      have hc1 : ¬ ('2' = '-') := by decide
      have hc2 : ¬ ('2' = '+') := by decide
      norm_num [pyFloat?, floatMag?, hs, hd, hc1, hc2]
    rw [convert_to_millicores_bare ['2'] 2 hf (by decide) (by decide)]
    norm_num
  · rw [show (['5', '0', '0', '0', '0', '0', '0', '0', '0', 'n'] : Str)
        = ['5', '0', '0', '0', '0', '0', '0', '0', '0'] ++ ['n'] from rfl,
      convert_to_millicores_nano ['5', '0', '0', '0', '0', '0', '0', '0', '0']
        500000000 (by decide)]
    norm_num
  · rw [show (['1', 'G', 'i'] : Str) = ['1'] ++ ['G', 'i'] from rfl,
      convert_to_megabytes_gi ['1'] 1 (by decide)]
    norm_num
  · rw [show (['5', '1', '2', 'M', 'i'] : Str) = ['5', '1', '2'] ++ ['M', 'i'] from rfl,
      convert_to_megabytes_mi ['5', '1', '2'] 512 (by decide)]
    norm_num
  · rw [show (['2', 'K', 'i'] : Str) = ['2'] ++ ['K', 'i'] from rfl,
      convert_to_megabytes_ki ['2'] 2 (by decide)]
    norm_num

/-- Witness for C2's amended rules: the millicore rule applied to the
concrete string 7m. -/
theorem unit_normalizer_rules_app :
    convert_to_millicores (['7'] ++ ['m']) = some (7 : ℚ) := by
  have h := unit_normalizer_rules.2.1 ['7'] 7 (by decide)
  rw [h]
  norm_num

/-! ### Concrete evaluations -/

/-- The string 100m normalizes to 100 millicores. -/
theorem conv_eval_100m : convert_to_millicores ['1', '0', '0', 'm'] = some 100 := by
  rw [show (['1', '0', '0', 'm'] : Str) = ['1', '0', '0'] ++ ['m'] from rfl,
    convert_to_millicores_milli ['1', '0', '0'] 100 (by decide)]
  norm_num

/-- The string 200m normalizes to 200 millicores. -/
theorem conv_eval_200m : convert_to_millicores ['2', '0', '0', 'm'] = some 200 := by
  rw [show (['2', '0', '0', 'm'] : Str) = ['2', '0', '0'] ++ ['m'] from rfl,
    convert_to_millicores_milli ['2', '0', '0'] 200 (by decide)]
  norm_num

/-- The bare string 4 normalizes to 4000 millicores. -/
theorem conv_eval_4 : convert_to_millicores ['4'] = some 4000 := by
  have hf : pyFloat? ['4'] = some 4 := by
    have hs : splitDots ['4'] = [['4']] := by decide
    have hd : digitsVal? ['4'] = some 4 := by decide
    norm_num [pyFloat?, floatMag?, hs, hd,
      (by decide : ¬ ('4' = '-')), (by decide : ¬ ('4' = '+'))]
  rw [convert_to_millicores_bare ['4'] 4 hf (by decide) (by decide)]
  norm_num

/-- The bare string 0 normalizes to 0 millicores. -/
theorem conv_eval_0 : convert_to_millicores ['0'] = some 0 := by
  have hf : pyFloat? ['0'] = some 0 := by
    have hs : splitDots ['0'] = [['0']] := by decide
    have hd : digitsVal? ['0'] = some 0 := by decide
    norm_num [pyFloat?, floatMag?, hs, hd,
      (by decide : ¬ ('0' = '-')), (by decide : ¬ ('0' = '+'))]
  rw [convert_to_millicores_bare ['0'] 0 hf (by decide) (by decide)]
  norm_num

/-- An unparseable CPU string fails to normalize. -/
theorem conv_eval_abc : convert_to_millicores ['a', 'b', 'c'] = none := by
  have hf : pyFloat? ['a', 'b', 'c'] = none := by
    have hs : splitDots ['a', 'b', 'c'] = [['a', 'b', 'c']] := by decide
    have hd : digitsVal? ['a', 'b', 'c'] = none := by decide
    norm_num [pyFloat?, floatMag?, hs, hd,
      (by decide : ¬ ('a' = '-')), (by decide : ¬ ('a' = '+'))]
  norm_num [convert_to_millicores,
    (by decide : strEndsWith ['a', 'b', 'c'] ['n'] = false),
    (by decide : strEndsWith ['a', 'b', 'c'] ['m'] = false), hf]

/-- The bare string 0 normalizes to 0 megabytes. -/
theorem convMB_eval_0 : convert_to_megabytes ['0'] = some 0 := by
  rw [convert_to_megabytes_bare ['0'] 0 (by decide) (by decide) (by decide) (by decide)]
  norm_num

/-- The string 100Mi normalizes to 100 megabytes. -/
theorem convMB_eval_100Mi : convert_to_megabytes ['1', '0', '0', 'M', 'i'] = some 100 := by
  rw [show (['1', '0', '0', 'M', 'i'] : Str) = ['1', '0', '0'] ++ ['M', 'i'] from rfl,
    convert_to_megabytes_mi ['1', '0', '0'] 100 (by decide)]
  norm_num

/-- Evaluation of one pod iteration for the nominal pod at price 1/20:
the record publishes with usage cost 1/200 and zero wastage cost. -/
theorem podStep_nominal_eval :
    podStep podCarryInit podNominal (CostValue.num (1 / 20))
      = Except.ok
        ({ cpuUsage := 100, memoryUsage := 100, cpuRequest := 100,
           memoryRequest := 100, unusedCpu := UnusedCpu.val 0,
           usageCost := 1 / 200, wastageCost := 0 },
         { mem := some 100, costs := some (1 / 200, 0) }) := by
  have h1 : podRequestCpu podNominal = some 100 := by
    simp [podRequestCpu, podNominal, conv_eval_100m]
  have h2 : podRequestMemory podNominal = some 100 := by
    simp [podRequestMemory, podNominal, convMB_eval_100Mi]
  have h3 : podUsageCpu podNominal = some 100 := by
    simp [podUsageCpu, podNominal, conv_eval_100m]
  have h4 : podUsageMemory podCarryInit podNominal = Except.ok (some 100) := by
    simp [podUsageMemory, podNominal, convMB_eval_100Mi]
  have e1 : pyRound (100 : ℚ) 2 = 100 := pyRound_eq_self _ _ 10000 (by norm_num)
  have e2 : pyRound (0 : ℚ) 2 = 0 := pyRound_zero 2
  have e3 : pyRound ((100 : ℚ) / 1000 * (1 / 20)) 8 = 1 / 200 := by
    rw [show ((100 : ℚ) / 1000 * (1 / 20)) = 1 / 200 by norm_num]
    exact pyRound_eq_self _ _ 500000 (by norm_num)
  have e3b : pyRound ((1 : ℚ) / 200) 8 = 1 / 200 :=
    pyRound_eq_self _ _ 500000 (by norm_num)
  have e4b : pyRound (0 : ℚ) 8 = 0 := pyRound_zero 8
  have es : (100 : ℚ) - 100 = 0 := by norm_num
  have c1 : (0 : ℚ) < 100 := by norm_num
  have c2 : (0 : ℚ) < 1 / 20 := by norm_num
  simp only [podStep, h1, h2, h3, h4, toExcept, pod_cost_calc, c1, c2,
    if_true, es, e1, e2, zero_div, zero_mul, e3, e3b, e4b]

/-- Evaluation of one pod iteration for the nominal pod at an Unknown
price: comparing the string sentinel with zero raises `TypeError`. -/
theorem podStep_unknown_eval :
    podStep podCarryInit podNominal CostValue.unknown
      = Except.error PyErr.typeError := by
  have h1 : podRequestCpu podNominal = some 100 := by
    simp [podRequestCpu, podNominal, conv_eval_100m]
  have h2 : podRequestMemory podNominal = some 100 := by
    simp [podRequestMemory, podNominal, convMB_eval_100Mi]
  have h3 : podUsageCpu podNominal = some 100 := by
    simp [podUsageCpu, podNominal, conv_eval_100m]
  have h4 : podUsageMemory podCarryInit podNominal = Except.ok (some 100) := by
    simp [podUsageMemory, podNominal, convMB_eval_100Mi]
  simp only [podStep, h1, h2, h3, h4, toExcept, pod_cost_calc]

/-- Evaluation of one pod iteration for the pod with the unparseable CPU
request: normalization fails and the `ValueError` escapes the iteration. -/
theorem podStep_badquantity_eval :
    podStep podCarryInit podBadQuantity (CostValue.num (1 / 20))
      = Except.error PyErr.valueError := by
  have h1 : podRequestCpu podBadQuantity = none := by
    simp [podRequestCpu, podBadQuantity, conv_eval_abc]
  simp only [podStep, h1, toExcept]

/-- Evaluation of one pod iteration for the pod using more CPU than it
requested: the published wastage cost is the negative value minus 1/200. -/
theorem podStep_overuse_eval :
    podStep podCarryInit podOveruse (CostValue.num (1 / 20))
      = Except.ok
        ({ cpuUsage := 200, memoryUsage := 0, cpuRequest := 100,
           memoryRequest := 0, unusedCpu := UnusedCpu.val (-100),
           usageCost := 1 / 100, wastageCost := -(1 / 200) },
         { mem := some 0, costs := some (1 / 100, -(1 / 200)) }) := by
  have h1 : podRequestCpu podOveruse = some 100 := by
    simp [podRequestCpu, podOveruse, conv_eval_100m]
  have h2 : podRequestMemory podOveruse = some 0 := by
    simp [podRequestMemory, podOveruse, convMB_eval_0]
  have h3 : podUsageCpu podOveruse = some 200 := by
    simp [podUsageCpu, podOveruse, conv_eval_200m]
  have h4 : podUsageMemory podCarryInit podOveruse = Except.ok (some 0) := by
    simp [podUsageMemory, podOveruse, convMB_eval_0]
  have e1 : pyRound (100 : ℚ) 2 = 100 := pyRound_eq_self _ _ 10000 (by norm_num)
  have e2 : pyRound (200 : ℚ) 2 = 200 := pyRound_eq_self _ _ 20000 (by norm_num)
  have e3 : pyRound (0 : ℚ) 2 = 0 := pyRound_zero 2
  have e4 : pyRound (-100 : ℚ) 2 = -100 := pyRound_eq_self _ _ (-10000) (by norm_num)
  have e5 : pyRound ((200 : ℚ) / 1000 * (1 / 20)) 8 = 1 / 100 := by
    rw [show ((200 : ℚ) / 1000 * (1 / 20)) = 1 / 100 by norm_num]
    exact pyRound_eq_self _ _ 1000000 (by norm_num)
  have e5b : pyRound ((1 : ℚ) / 100) 8 = 1 / 100 :=
    pyRound_eq_self _ _ 1000000 (by norm_num)
  have e6 : pyRound ((-100 : ℚ) / 1000 * (1 / 20)) 8 = -(1 / 200) := by
    rw [show ((-100 : ℚ) / 1000 * (1 / 20)) = -(1 / 200) by norm_num]
    exact pyRound_eq_self _ _ (-500000) (by norm_num)
  have e6b : pyRound (-(1 / 200) : ℚ) 8 = -(1 / 200) :=
    pyRound_eq_self _ _ (-500000) (by norm_num)
  have es : (100 : ℚ) - 200 = -100 := by norm_num
  have c1 : (0 : ℚ) < 100 := by norm_num
  have c2 : (0 : ℚ) < 1 / 20 := by norm_num
  simp only [podStep, h1, h2, h3, h4, toExcept, pod_cost_calc, c1, c2,
    if_true, es, e1, e2, e3, e4, zero_div, zero_mul, e5, e5b, e6, e6b]

/-- Evaluation of one pod iteration for the pod without resource requests:
the unused-CPU field keeps the dash sentinel and the wastage cost is 0. -/
theorem podStep_zeroreq_eval :
    podStep podCarryInit podZeroRequest (CostValue.num (1 / 20))
      = Except.ok
        ({ cpuUsage := 100, memoryUsage := 0, cpuRequest := 0,
           memoryRequest := 0, unusedCpu := UnusedCpu.na,
           usageCost := 1 / 200, wastageCost := 0 },
         { mem := some 0, costs := some (1 / 200, 0) }) := by
  have h1 : podRequestCpu podZeroRequest = some 0 := rfl
  have h2 : podRequestMemory podZeroRequest = some 0 := rfl
  have h3 : podUsageCpu podZeroRequest = some 100 := by
    simp [podUsageCpu, podZeroRequest, conv_eval_100m]
  have h4 : podUsageMemory podCarryInit podZeroRequest = Except.ok (some 0) := by
    simp [podUsageMemory, podZeroRequest, convMB_eval_0]
  have e1 : pyRound (100 : ℚ) 2 = 100 := pyRound_eq_self _ _ 10000 (by norm_num)
  have e2 : pyRound (0 : ℚ) 2 = 0 := pyRound_zero 2
  have e3 : pyRound ((100 : ℚ) / 1000 * (1 / 20)) 8 = 1 / 200 := by
    rw [show ((100 : ℚ) / 1000 * (1 / 20)) = 1 / 200 by norm_num]
    exact pyRound_eq_self _ _ 500000 (by norm_num)
  have e3b : pyRound ((1 : ℚ) / 200) 8 = 1 / 200 :=
    pyRound_eq_self _ _ 500000 (by norm_num)
  have e4 : pyRound (0 : ℚ) 8 = 0 := pyRound_zero 8
  have c2 : (0 : ℚ) < 1 / 20 := by norm_num
  simp only [podStep, h1, h2, h3, h4, toExcept, pod_cost_calc, c2, if_true,
    lt_self_iff_false, if_false, e1, e2, e3, e3b, e4]

/-- Evaluation of one node iteration for the nominal node at an Unknown
price: the hourly cost stays the string sentinel and dividing it by 12
raises `TypeError`. -/
theorem nodeStep_unknown_eval :
    nodeStep nodeNominal CostValue.unknown = Except.error PyErr.typeError := by
  simp only [nodeStep, nodeUsage, nodeNominal, Option.getD, conv_eval_4,
    convMB_eval_0, toExcept, node_cost_calc]

/-- Evaluation of one node iteration for the zero-capacity node at a known
price: the cost block is skipped, the hourly cost stays the string
sentinel, and dividing it by 12 raises `TypeError`. -/
theorem nodeStep_zerocap_eval :
    nodeStep nodeZeroCapacity (CostValue.num 3) = Except.error PyErr.typeError := by
  simp only [nodeStep, nodeUsage, nodeZeroCapacity, Option.getD, conv_eval_0,
    convMB_eval_0, toExcept, node_cost_calc, lt_self_iff_false, if_false]

/-- Evaluation of one node iteration for the nominal node at price 3: the
node publishes hourly cost 12, zero usage cost and wastage cost 12. -/
theorem nodeStep_nominal_eval :
    nodeStep nodeNominal (CostValue.num 3)
      = Except.ok
        { currentCpu := 0, currentMemory := 0, totalCpu := 4000,
          totalMemory := 0, hourlyCost := 12, fiveMinCost := 1,
          usageCost := 0, wastageCost := 12 } := by
  have e1 : pyRound ((3 : ℚ) * (4000 / 1000)) 8 = 12 := by
    rw [show ((3 : ℚ) * (4000 / 1000)) = 12 by norm_num]
    exact pyRound_eq_self _ _ 1200000000 (by norm_num)
  have e1b : pyRound (12 : ℚ) 8 = 12 := pyRound_eq_self _ _ 1200000000 (by norm_num)
  have e2 : pyRound (0 : ℚ) 8 = 0 := pyRound_zero 8
  have e3 : pyRound (1 : ℚ) 8 = 1 := pyRound_eq_self _ _ 100000000 (by norm_num)
  have eu : (0 : ℚ) / 4000 * 12 = 0 := by norm_num
  have ew : ((4000 : ℚ) - 0) / 4000 * 12 = 12 := by norm_num
  have ef : (12 : ℚ) / 12 = 1 := by norm_num
  have c1 : (0 : ℚ) < 4000 := by norm_num
  simp only [nodeStep, nodeUsage, nodeNominal, Option.getD, conv_eval_4,
    convMB_eval_0, toExcept, node_cost_calc, c1, if_true, e1, eu, ew, ef,
    e1b, e2, e3]

/-- Python rounding is idempotent at a fixed precision. -/
theorem pyRound_pyRound (x : ℚ) (n : Nat) : pyRound (pyRound x n) n = pyRound x n := by
  apply pyRound_eq_self _ _ (roundHalfEven (x * 10 ^ n))
  rw [pyRound]
  exact div_mul_cancel₀ _ (by positivity)

/-- C4: a pod record whose price lookup resolves to Unknown does not
publish with zero costs: the comparison of the string sentinel with zero
raises `TypeError`, the record is not published, and the remaining pods of
the pass are not processed either, while the same pod with a known price
would have published. -/
theorem pod_unknown_price_raises :
    podStep podCarryInit podNominal CostValue.unknown = Except.error PyErr.typeError
    ∧ gather_pod_pass podCarryInit
        [(podNominal, CostValue.unknown), (podNominal, CostValue.num (1 / 20))] = []
    ∧ (gather_pod_pass podCarryInit [(podNominal, CostValue.num (1 / 20))]).length = 1 := by
  refine ⟨podStep_unknown_eval, ?_, ?_⟩
  · simp only [gather_pod_pass, podStep_unknown_eval]
  · simp only [gather_pod_pass, podStep_nominal_eval, List.length_singleton]

/-- C5: a node with an Unknown unit price or zero CPU capacity does not
report zero hourly cost and continue: the hourly cost stays the string
sentinel, dividing it by 12 raises `TypeError`, and the node pass stops
there, dropping the remaining nodes, while the same node with a known
price and positive capacity would have published. -/
theorem node_unknown_price_aborts :
    nodeStep nodeNominal CostValue.unknown = Except.error PyErr.typeError
    ∧ nodeStep nodeZeroCapacity (CostValue.num 3) = Except.error PyErr.typeError
    ∧ gather_node_pass
        [(nodeNominal, CostValue.unknown), (nodeNominal, CostValue.num 3)] = []
    ∧ (gather_node_pass [(nodeNominal, CostValue.num 3)]).length = 1 := by
  refine ⟨nodeStep_unknown_eval, nodeStep_zerocap_eval, ?_, ?_⟩
  · simp only [gather_node_pass, nodeStep_unknown_eval]
  · simp only [gather_node_pass, nodeStep_nominal_eval, List.length_singleton]

/-- C6: a pod whose CPU quantity string is unparseable does not degrade to
zero usage for that record only: normalization fails (the `ValueError`
model of `MalformedQuantity`), the exception is not caught by the
`ApiException` handler, and the whole pod pass aborts, dropping the
remaining pods. -/
theorem malformed_quantity_aborts_pod_pass :
    convert_to_millicores ['a', 'b', 'c'] = none
    ∧ podStep podCarryInit podBadQuantity (CostValue.num (1 / 20))
        = Except.error PyErr.valueError
    ∧ gather_pod_pass podCarryInit
        [(podBadQuantity, CostValue.num (1 / 20)),
         (podNominal, CostValue.num (1 / 20))] = []
    ∧ (gather_pod_pass podCarryInit [(podNominal, CostValue.num (1 / 20))]).length = 1 := by
  refine ⟨conv_eval_abc, podStep_badquantity_eval, ?_, ?_⟩
  · simp only [gather_pod_pass, podStep_badquantity_eval]
  · simp only [gather_pod_pass, podStep_nominal_eval, List.length_singleton]

/-- C8 counterexample: a pod requesting 100m but using 200m at price 1/20
publishes a negative wastage cost of minus 1/200 — refuting that all
published cost outputs are non-negative and that the negative unused-CPU
intermediate is clamped to zero. -/
theorem pod_negative_wastage_cx :
    podStep podCarryInit podOveruse (CostValue.num (1 / 20))
      = Except.ok
        ({ cpuUsage := 200, memoryUsage := 0, cpuRequest := 100,
           memoryRequest := 0, unusedCpu := UnusedCpu.val (-100),
           usageCost := 1 / 100, wastageCost := -(1 / 200) },
         { mem := some 0, costs := some (1 / 100, -(1 / 200)) })
    ∧ ({ cpuUsage := 200, memoryUsage := 0, cpuRequest := 100,
         memoryRequest := 0, unusedCpu := UnusedCpu.val (-100),
         usageCost := 1 / 100, wastageCost := -(1 / 200) } : PodPublished).wastageCost
        < 0 :=
  ⟨podStep_overuse_eval, by norm_num⟩

/-- C8 amended: for a published pod record with a positive price and a
positive rounded CPU request, the usage cost is non-negative whenever the
usage is, but the wastage cost is the unclamped rounded value of
(request minus usage) over 1000 times the price, which is negative when
usage exceeds request by enough to survive rounding. -/
theorem pod_wastage_unclamped (carry : PodCarry) (pod : PodInput) (p r u : ℚ)
    (pub : PodPublished) (carry' : PodCarry)
    (hr : podRequestCpu pod = some r) (hu : podUsageCpu pod = some u)
    (hp : 0 < p) (hrpos : 0 < pyRound r 2)
    (hstep : podStep carry pod (CostValue.num p) = Except.ok (pub, carry')) :
    pub.wastageCost = pyRound ((pyRound (r - u) 2 / 1000) * p) 8
    ∧ pub.usageCost = pyRound ((pyRound u 2 / 1000) * p) 8
    ∧ (0 ≤ u → 0 ≤ pub.usageCost) := by
  have hr0 : 0 < r := by
    by_contra hle
    push_neg at hle
    exact absurd hrpos (not_lt.2 (pyRound_nonpos r 2 hle))
  cases hmem : podRequestMemory pod with
  | none => simp [podStep, hr, hmem, toExcept, bind, Except.bind] at hstep
  | some mr =>
    cases hm : podUsageMemory carry pod with
    | error e =>
      simp [podStep, hr, hmem, hu, hm, toExcept, bind, Except.bind] at hstep
    | ok mo =>
      cases mo with
      | none =>
        simp [podStep, hr, hmem, hu, hm, toExcept, bind, Except.bind] at hstep
      | some m =>
        simp only [podStep, hr, hmem, hu, hm, toExcept, bind, Except.bind,
          pure, Except.pure, pod_cost_calc, if_pos hr0, if_pos hp,
          if_pos hrpos, Except.ok.injEq, Prod.mk.injEq] at hstep
        obtain ⟨hpub, hcar⟩ := hstep
        rw [← hpub]
        refine ⟨pyRound_pyRound _ 8, pyRound_pyRound _ 8, ?_⟩
        intro hu0
        apply pyRound_nonneg
        apply pyRound_nonneg
        apply mul_nonneg _ (le_of_lt hp)
        apply div_nonneg _ (by norm_num)
        exact pyRound_nonneg u 2 hu0

/-- Witness for C8's amended statement at the overusing pod: the published
costs equal the unclamped formulas. -/
theorem pod_wastage_unclamped_app :
    (-(1 / 200) : ℚ) = pyRound ((pyRound ((100 : ℚ) - 200) 2 / 1000) * (1 / 20)) 8
    ∧ (1 / 100 : ℚ) = pyRound ((pyRound (200 : ℚ) 2 / 1000) * (1 / 20)) 8 := by
  have hr : podRequestCpu podOveruse = some 100 := by
    simp [podRequestCpu, podOveruse, conv_eval_100m]
  have hu : podUsageCpu podOveruse = some 200 := by
    simp [podUsageCpu, podOveruse, conv_eval_200m]
  have hrpos : 0 < pyRound (100 : ℚ) 2 := by
    rw [pyRound_eq_self (100 : ℚ) 2 10000 (by norm_num)]
    norm_num
  have h := pod_wastage_unclamped podCarryInit podOveruse (1 / 20) 100 200 _ _
    hr hu (by norm_num) hrpos podStep_overuse_eval
  exact ⟨h.1, h.2.1⟩

/-- C9 counterexample: the claim fails without a positivity condition on
the price. At the known numeric price 0 the cost guard is false, so the
usage and wastage variables keep the previous iteration's values and the
zero-request pod republishes the stale nonzero wastage cost 5 under its
own labels — refuting that the wastage cost is exactly 0 for every pod
record with CPU request zero. -/
theorem pod_zero_request_stale_cx :
    podStep { mem := some 0, costs := some (3, 5) } podZeroRequest (CostValue.num 0)
      = Except.ok
        ({ cpuUsage := 100, memoryUsage := 0, cpuRequest := 0,
           memoryRequest := 0, unusedCpu := UnusedCpu.na,
           usageCost := 3, wastageCost := 5 },
         { mem := some 0, costs := some (3, 5) })
    ∧ ({ cpuUsage := 100, memoryUsage := 0, cpuRequest := 0,
         memoryRequest := 0, unusedCpu := UnusedCpu.na,
         usageCost := 3, wastageCost := 5 } : PodPublished).wastageCost ≠ 0 := by
  constructor
  · have h1 : podRequestCpu podZeroRequest = some 0 := rfl
    have h2 : podRequestMemory podZeroRequest = some 0 := rfl
    have h3 : podUsageCpu podZeroRequest = some 100 := by
      simp [podUsageCpu, podZeroRequest, conv_eval_100m]
    have h4 : podUsageMemory { mem := some 0, costs := some (3, 5) } podZeroRequest
        = Except.ok (some 0) := by
      simp [podUsageMemory, podZeroRequest, convMB_eval_0]
    have e1 : pyRound (100 : ℚ) 2 = 100 := pyRound_eq_self _ _ 10000 (by norm_num)
    have e2 : pyRound (0 : ℚ) 2 = 0 := pyRound_zero 2
    have e3 : pyRound (3 : ℚ) 8 = 3 := pyRound_eq_self _ _ 300000000 (by norm_num)
    have e4 : pyRound (5 : ℚ) 8 = 5 := pyRound_eq_self _ _ 500000000 (by norm_num)
    simp only [podStep, h1, h2, h3, h4, toExcept, pod_cost_calc,
      lt_self_iff_false, if_false, e1, e2, e3, e4]
  · norm_num

/-- C9 amended: a published pod record whose CPU request is zero and whose
known price is positive has wastage cost exactly zero (the wastage formula
is not evaluated) and reports the unused-CPU field as the dash sentinel
rather than zero; at a known non-positive price the cost block is skipped
and the previous iteration's stale costs are republished instead. -/
theorem pod_zero_request_sentinel (carry : PodCarry) (pod : PodInput) (p : ℚ)
    (pub : PodPublished) (carry' : PodCarry)
    (hreq : podRequestCpu pod = some 0) (hp : 0 < p)
    (hstep : podStep carry pod (CostValue.num p) = Except.ok (pub, carry')) :
    pub.wastageCost = 0 ∧ pub.unusedCpu = UnusedCpu.na := by
  cases hmem : podRequestMemory pod with
  | none => simp [podStep, hreq, hmem, toExcept, bind, Except.bind] at hstep
  | some mr =>
    cases husg : podUsageCpu pod with
    | none => simp [podStep, hreq, hmem, husg, toExcept, bind, Except.bind] at hstep
    | some u =>
      cases hm : podUsageMemory carry pod with
      | error e =>
        simp [podStep, hreq, hmem, husg, hm, toExcept, bind, Except.bind] at hstep
      | ok mo =>
        cases mo with
        | none =>
          simp [podStep, hreq, hmem, husg, hm, toExcept, bind, Except.bind] at hstep
        | some m =>
          have e0 : pyRound (0 : ℚ) 2 = 0 := pyRound_zero 2
          simp only [podStep, hreq, hmem, husg, hm, toExcept, bind, Except.bind,
            pure, Except.pure, pod_cost_calc, e0, lt_self_iff_false, if_false,
            if_pos hp, Except.ok.injEq, Prod.mk.injEq] at hstep
          obtain ⟨hpub, hcar⟩ := hstep
          rw [← hpub]
          exact ⟨pyRound_zero 8, rfl⟩

/-- Witness for C9 at the request-free pod: zero wastage cost and the dash
sentinel in the published record. -/
theorem pod_zero_request_sentinel_app :
    ({ cpuUsage := 100, memoryUsage := 0, cpuRequest := 0,
       memoryRequest := 0, unusedCpu := UnusedCpu.na,
       usageCost := 1 / 200, wastageCost := 0 } : PodPublished).wastageCost = 0
    ∧ ({ cpuUsage := 100, memoryUsage := 0, cpuRequest := 0,
         memoryRequest := 0, unusedCpu := UnusedCpu.na,
         usageCost := 1 / 200, wastageCost := 0 } : PodPublished).unusedCpu
        = UnusedCpu.na :=
  pod_zero_request_sentinel podCarryInit podZeroRequest (1 / 20) _ _ rfl
    (by norm_num) podStep_zeroreq_eval
